import Mathlib

/-!
Verification development for the world-simulation server core.

The definitions below are a shallow embedding of the server's event
pipeline: the data model from shared/types.ts, the persistence boundary
(database.ts, external; modelled from its spec as an append/query store),
the GameEngine (gameEngine.ts), the websocket event pump
(websocketServer.ts), the command orchestration (commandHandler.ts), the
action handlers (eventHandlers/), and the scheduler's idle scan
(the 30-second CronjobService variant wired by index.ts).

Conventions of the embedding:
* JS numbers are modelled as rationals (`ℚ`); a separate JS-value model
  (`JsVal`) is used where NaN/Infinity behaviour matters.
* `Math.sqrt(d2) <= r` comparisons are embedded as the decidable
  `distWithin d2 r` (`0 ≤ r ∧ d2 ≤ r * r`); the lemma
  `distWithin_iff_sqrt_le` proves this equal to the source's comparison
  on real numbers.
* `Math.round(x)` for nonnegative `x` is `⌊x + 1/2⌋₊`; the executable
  integer implementation is `roundSqrtQ`, related to the real formula by
  `roundSqrtQ_eq_floor`.
* `uuidv4()` identifiers are opaque and never inspected; generated events
  carry the placeholder id `""`, and the one place where a fresh id is
  observable (pickup's new item instance) takes it as a parameter.
* `new Date()` timestamps on generated events are set to `0` (they are
  never read back); input events carry their own `timestamp` field, in
  epoch milliseconds, as in the source.
-/

/-- Position from shared/types.ts: three JS-number coordinates. -/
structure Position where
  x : ℚ
  y : ℚ
  z : ℚ
deriving DecidableEq

/-- ItemInstance from shared/types.ts. -/
structure ItemInstance where
  id : String
  assetId : String
  description : String
  relativePosition : Position
deriving DecidableEq

/-- Entity from shared/types.ts. -/
structure Entity where
  id : String
  name : String
  worldId : String
  position : Position
  bodyParts : List String
  itemInstances : List ItemInstance
deriving DecidableEq

/-- The ad hoc `parameters` bag carried by every GameEvent.  The source
stores a JS object; here every field that any event kind uses is an
optional field, except `entityId` and `worldId`, which every event kind
sets.  The `distanceSq` field carries the square of the source's
`distance` parameter (the source stores the Euclidean distance itself,
which is irrational in general; no code path reads the value back). -/
structure EventParams where
  entityId : String
  worldId : String
  message : Option String := none
  volume : Option ℚ := none
  speakerId : Option String := none
  distanceSq : Option ℚ := none
  fromPos : Option Position := none
  toPos : Option Position := none
  duration : Option ℕ := none
  targetPosition : Option Position := none
  itemInstanceId : Option String := none
  assetId : Option String := none
  description : Option String := none
  relativePosition : Option Position := none
  fromPosition : Option Position := none
  toPosition : Option Position := none
  position : Option Position := none
  command : Option String := none
  source : Option String := none
  originalCommand : Option String := none
  errorMessage : Option String := none
  errorType : Option String := none
  severity : Option String := none
  triggeredBy : Option String := none
deriving DecidableEq

/-- GameEvent from shared/types.ts: `functionCall` is an open string tag. -/
structure GameEvent where
  id : String
  functionCall : String
  parameters : EventParams
  timestamp : ℤ
deriving DecidableEq

/-- GameState from shared/types.ts.  The source keys `entities` by id in a
JS object; `Object.entries` iterates in insertion order, so it is
modelled as a list. -/
structure GameState where
  worldId : String
  entities : List Entity
  recentEvents : List GameEvent
deriving DecidableEq

/-- Modelled from the spec: the PersistenceBackend (database.ts is not part
of the sources; the spec describes it as a durable store of entities and
an append-only event log, every operation filtered by world id). -/
structure Db where
  entities : List Entity
  eventLog : List GameEvent
deriving DecidableEq

/-- Modelled from the spec: `database.getEntity(id)`. -/
def Db.getEntity (db : Db) (entityId : String) : Option Entity :=
  db.entities.find? (fun e => e.id == entityId)

/-- Modelled from the spec: `database.getEntitiesByWorld(worldId)`. -/
def Db.getEntitiesByWorld (db : Db) (worldId : String) : List Entity :=
  db.entities.filter (fun e => e.worldId == worldId)

/-- Modelled from the spec: `database.saveEvent(event)` appends to the
event log. -/
def Db.saveEvent (db : Db) (e : GameEvent) : Db :=
  { db with eventLog := e :: db.eventLog }

/-- Modelled from the spec: `database.updateEntityPosition(id, pos)`. -/
def Db.updateEntityPosition (db : Db) (entityId : String) (pos : Position) : Db :=
  { db with entities :=
      db.entities.map (fun e => if e.id == entityId then { e with position := pos } else e) }

/-- Modelled from the spec: `database.removeItemInstanceFromEntity(itemInstanceId)`
deletes the item instance with that id from its owning entity. -/
def Db.removeItemInstanceFromEntity (db : Db) (itemInstanceId : String) : Db :=
  { db with entities :=
      db.entities.map (fun e =>
        { e with itemInstances := e.itemInstances.filter (fun it => it.id != itemInstanceId) }) }

/-- Modelled from the spec: `database.addItemInstanceToEntity(entityId, item)`. -/
def Db.addItemInstanceToEntity (db : Db) (entityId : String) (item : ItemInstance) : Db :=
  { db with entities :=
      db.entities.map (fun e =>
        if e.id == entityId then { e with itemInstances := e.itemInstances ++ [item] } else e) }

/-- Squared 3-axis Euclidean distance.  The source's `calculateDistance`
returns `Math.sqrt` of this value; all uses compare it against a range,
so the embedding works with the square (see `distWithin_iff_sqrt_le`). -/
def calculateDistanceSq (p1 p2 : Position) : ℚ :=
  (p1.x - p2.x) ^ 2 + (p1.y - p2.y) ^ 2 + (p1.z - p2.z) ^ 2

/-- Decidable embedding of the source comparison `Math.sqrt d2 <= r`. -/
def distWithin (d2 r : ℚ) : Bool :=
  decide (0 ≤ r) && decide (d2 ≤ r * r)

/-- Executable `Math.round (Math.sqrt q)` for a nonnegative rational `q`:
round-half-up of the real square root, computed with `Nat.sqrt`.
`roundSqrtQ_eq_floor` proves it equal to `⌊Real.sqrt q + 1/2⌋₊`. -/
def roundSqrtQ (q : ℚ) : ℕ :=
  (Nat.sqrt (4 * q.num.toNat * q.den) + q.den) / (2 * q.den)

/-- Lookup `gameState.entities[entityId]`. -/
def GameState.findEntity (s : GameState) (entityId : String) : Option Entity :=
  s.entities.find? (fun e => e.id == entityId)

/-- Heard event synthesized for a listener, as built both by
`GameEngine.processSpeakEvent` and `SpeakEventHandler.handleSpeakDecision`:
kind `heard` with speakerId, message and distance (its square here). -/
def mkHeardEvent (worldId speakerId listenerId : String) (message : Option String)
    (d2 : ℚ) : GameEvent :=
  { id := "", functionCall := "heard",
    parameters := { entityId := listenerId, worldId := worldId,
                    speakerId := some speakerId, message := message,
                    distanceSq := some d2 },
    timestamp := 0 }

/-- gameEngine.ts `processSpeakEvent`, as the list of heard events it feeds
back into `addEvent`: volume defaults to 1, the hearing range is
`volume * 10` ("Base hearing range"), and every other entity of the world
state within that range of the speaker gets one heard event.  The source
pushes each event through `addEvent` inside the loop; since heard events
touch neither entity (only the buffer and the log), collecting the list
first is equivalent. -/
def GameEngine.processSpeakEventDerived (s : GameState) (e : GameEvent) : List GameEvent :=
  match s.findEntity e.parameters.entityId with
  | none => []
  | some speaker =>
      let volume := e.parameters.volume.getD 1
      let hearingRange := volume * 10
      (s.entities.filter (fun ent =>
          ent.id != e.parameters.entityId &&
          distWithin (calculateDistanceSq speaker.position ent.position) hearingRange)).map
        (fun ent => mkHeardEvent s.worldId e.parameters.entityId ent.id
          e.parameters.message (calculateDistanceSq speaker.position ent.position))

/-- gameEngine.ts `processEvent`, restricted to the events it synthesizes:
only the `speak` case produces derived events; `move` and `checkTasks`
have direct effects only, and every other kind (including `heard`) falls
through the `default: break` arm. -/
def GameEngine.deriveEvents (s : GameState) (e : GameEvent) : List GameEvent :=
  match e.functionCall with
  | "speak" => GameEngine.processSpeakEventDerived s e
  | _ => []

/-- gameEngine.ts `processEvent`, restricted to its direct effects: the
`move` case (`processMovementEvent`) sets the entity's position in the
world state and persists it via `updateEntityPosition`; no other case
mutates state. -/
def GameEngine.applyEffect (db : Db) (s : GameState) (e : GameEvent) : Db × GameState :=
  match e.functionCall with
  | "move" =>
      match s.findEntity e.parameters.entityId, e.parameters.toPos with
      | some _, some tp =>
          (Db.updateEntityPosition db e.parameters.entityId tp,
           { s with entities := s.entities.map (fun ent =>
               if ent.id == e.parameters.entityId then { ent with position := tp } else ent) })
      | _, _ => (db, s)
  | _ => (db, s)

/-- gameEngine.ts `addEvent` steps 2b-2c: unshift onto `recentEvents` and
evict past 50. -/
def GameEngine.bufferEvent (s : GameState) (e : GameEvent) : GameState :=
  let r := e :: s.recentEvents
  { s with recentEvents := if r.length > 50 then r.take 50 else r }

/-- Outcome of running `GameEngine.addEvent`: the backend, the world state,
and the error the call rejected with (`none` when it resolved). -/
structure EngineResult where
  db : Db
  state : GameState
  err : Option String
deriving DecidableEq

/-- gameEngine.ts `addEvent`.  Control flow of the source: (1) silently
return if the event's worldId differs from the engine's; (2)
`database.saveEvent` — a rejection here propagates and nothing after it
runs (`failPersist` injects the persistence backend's possible failure);
(3) buffer into `recentEvents`; (4) `processEvent`, which applies the
direct effect and, for `speak`, recursively `addEvent`s each heard event
(a rejection inside the loop propagates, abandoning the rest).  The
recursion is paid for with explicit fuel; one unit is spent per nested
`addEvent` call, and every run in this development is given enough fuel
that the limit arm is never reached. -/
def GameEngine.addEvent (failPersist : GameEvent → Option String) :
    ℕ → Db → GameState → GameEvent → EngineResult
  | 0, db, s, _ => { db := db, state := s, err := some "recursion limit" }
  | fuel + 1, db, s, e =>
      if e.parameters.worldId ≠ s.worldId then
        { db := db, state := s, err := none }
      else
        match failPersist e with
        | some msg => { db := db, state := s, err := some msg }
        | none =>
            let db1 := Db.saveEvent db e
            let s1 := GameEngine.bufferEvent s e
            let applied := GameEngine.applyEffect db1 s1 e
            (GameEngine.deriveEvents s1 e).foldl
              (fun r d =>
                match r.err with
                | some _ => r
                | none => GameEngine.addEvent failPersist fuel r.db r.state d)
              { db := applied.1, state := applied.2, err := none }

/-- websocketServer.ts `processGameEngineEvent`: `addEvent` the incoming
event, then `broadcastEvent(event)` — unconditionally, whether or not the
engine accepted it; only a rejection thrown out of `addEvent` skips the
broadcast.  Returns the engine outcome together with the list of events
broadcast to connected clients.  The surrounding secondary-event handling
(`commandHandler.handleEvent` plus the trailing `processEvents` drain) is
elided here: it concerns events derived from this one, and neither adds
nor removes a broadcast of the event itself. -/
def GameWebSocketServer.processGameEngineEvent (failPersist : GameEvent → Option String)
    (fuel : ℕ) (db : Db) (s : GameState) (e : GameEvent) :
    EngineResult × List GameEvent :=
  let r := GameEngine.addEvent failPersist fuel db s e
  match r.err with
  | some _ => (r, [])
  | none => (r, [e])

/-- The speech event built by speakEventHandler.ts `handleSpeakDecision`. -/
def mkSpeechEvent (entityId worldId message : String) (volume : ℚ) : GameEvent :=
  { id := "", functionCall := "speak",
    parameters := { entityId := entityId, worldId := worldId,
                    message := some message, volume := some volume },
    timestamp := 0 }

/-- speakEventHandler.ts `handleSpeakDecision`: load the speaker (missing
entity rejects), build the speech event, then one heard event per other
entity of the world whose distance from the speaker satisfies
`distance <= volume`; returns the speech event followed by the heard
events. -/
def SpeakEventHandler.handleSpeakDecision (db : Db) (entityId worldId message : String)
    (volume : ℚ) : Except String (List GameEvent) :=
  match Db.getEntity db entityId with
  | none => .error "Entity not found"
  | some speaker =>
      let speechEvent := mkSpeechEvent entityId worldId message volume
      let worldEntities := Db.getEntitiesByWorld db worldId
      let heardEvents := (worldEntities.filter (fun ent =>
          ent.id != entityId &&
          distWithin (calculateDistanceSq speaker.position ent.position) volume)).map
        (fun ent => mkHeardEvent worldId entityId ent.id (some message)
          (calculateDistanceSq speaker.position ent.position))
      .ok (speechEvent :: heardEvents)

/-- moveEventHandler.ts `hasDirectPath`: "For now, assume all paths are
direct". -/
def MoveEventHandler.hasDirectPath (_fromP _toP : Position) : Bool :=
  true

/-- moveEventHandler.ts `calculatePathSegments`: both the short-distance /
direct-path branch and the long-distance fallback return the single
straight segment `[(from, to)]`.  The guard compares the Euclidean
distance with 2.0 (embedded via `distWithin`). -/
def MoveEventHandler.calculatePathSegments (fromP toP : Position) :
    List (Position × Position) :=
  if distWithin (calculateDistanceSq fromP toP) 2 || MoveEventHandler.hasDirectPath fromP toP
  then [(fromP, toP)]
  else [(fromP, toP)]

/-- moveEventHandler.ts `calculateMovementDuration`:
`Math.max(500, Math.round(distance * 1250))`.  Embedded with
`roundSqrtQ`: `round (sqrt d2 * 1250) = round (sqrt (d2 * 1250^2))`,
and `1250^2 = 1562500`. -/
def MoveEventHandler.calculateMovementDuration (fromP toP : Position) : ℕ :=
  max 500 (roundSqrtQ (calculateDistanceSq fromP toP * 1562500))

/-- One movement event of moveEventHandler.ts `handleMoveDecision`. -/
def mkMoveEvent (entityId worldId : String) (fromP toP : Position) : GameEvent :=
  { id := "", functionCall := "move",
    parameters := { entityId := entityId, worldId := worldId,
                    fromPos := some fromP, toPos := some toP,
                    duration := some (MoveEventHandler.calculateMovementDuration fromP toP) },
    timestamp := 0 }

/-- moveEventHandler.ts `handleMoveDecision` over the rational model: load
the entity (missing entity rejects), compute the path segments, build one
movement event per segment, then persist the final position once via
`updateEntityPosition`.  The coordinate-type validations of the source
always pass over `ℚ`; they are modelled separately at the JS value level
by `MoveEventHandler.handleMoveDecisionJs`. -/
def MoveEventHandler.handleMoveDecision (db : Db) (entityId worldId : String)
    (targetPosition : Position) : Except String (Db × List GameEvent) :=
  match Db.getEntity db entityId with
  | none => .error "Entity not found"
  | some entity =>
      let pathSegments := MoveEventHandler.calculatePathSegments entity.position targetPosition
      let movementEvents := pathSegments.map (fun seg => mkMoveEvent entityId worldId seg.1 seg.2)
      .ok (Db.updateEntityPosition db entityId targetPosition, movementEvents)

/-- The drop event built by dropEventHandler.ts `handleDropDecision`,
carrying the actor's current position as `toPosition`. -/
def mkDropEvent (entityId worldId itemInstanceId : String) (toPosition : Position) : GameEvent :=
  { id := "", functionCall := "drop",
    parameters := { entityId := entityId, worldId := worldId,
                    itemInstanceId := some itemInstanceId,
                    toPosition := some toPosition },
    timestamp := 0 }

/-- dropEventHandler.ts `handleDropDecision`: load the entity (missing
entity rejects), require the item instance to be in its inventory
(otherwise reject, before any mutation), then remove the instance from
the backend and return exactly the one drop event.  The drop event itself
is deliberately not saved here ("let GameEngine handle event saving"). -/
def DropEventHandler.handleDropDecision (db : Db) (entityId worldId itemInstanceId : String) :
    Except String (Db × List GameEvent) :=
  match Db.getEntity db entityId with
  | none => .error "Entity not found"
  | some entity =>
      match entity.itemInstances.find? (fun item => item.id == itemInstanceId) with
      | none => .error "Entity does not have item instance"
      | some _ =>
          let dropEvent := mkDropEvent entityId worldId itemInstanceId entity.position
          .ok (Db.removeItemInstanceFromEntity db itemInstanceId, [dropEvent])

/-- The pickup event built by pickupEventHandler.ts `handlePickupDecision`. -/
def mkPickupEvent (entityId worldId itemInstanceId : String)
    (fromPosition relativePosition : Position) : GameEvent :=
  { id := "", functionCall := "pickup",
    parameters := { entityId := entityId, worldId := worldId,
                    itemInstanceId := some itemInstanceId,
                    fromPosition := some fromPosition,
                    relativePosition := some relativePosition },
    timestamp := 0 }

/-- pickupEventHandler.ts `handlePickupDecision`: load the entity (missing
entity rejects), create a fresh item instance (`freshItemId` stands for
the `uuidv4()` call; an empty description falls back to "A " plus the
asset id), add it to the entity's inventory in the backend, and return
exactly the one pickup event.  The pickup event itself is deliberately
not saved here. -/
def PickupEventHandler.handlePickupDecision (db : Db) (entityId worldId assetId : String)
    (description : String) (relativePosition : Position) (freshItemId : String) :
    Except String (Db × List GameEvent) :=
  match Db.getEntity db entityId with
  | none => .error "Entity not found"
  | some entity =>
      let itemInstance : ItemInstance :=
        { id := freshItemId, assetId := assetId,
          description := if description = "" then "A " ++ assetId else description,
          relativePosition := relativePosition }
      let pickupEvent := mkPickupEvent entityId worldId itemInstance.id
        entity.position relativePosition
      .ok (Db.addItemInstanceToEntity db entityId itemInstance, [pickupEvent])

/-- errorService.ts `ErrorService.createCharacterError`. -/
def ErrorService.createCharacterError (entityId worldId errorMessage errorType : String)
    (originalCommand : Option String) (severity : String) : GameEvent :=
  { id := "", functionCall := "characterError",
    parameters := { entityId := entityId, worldId := worldId,
                    errorMessage := some errorMessage, errorType := some errorType,
                    originalCommand := originalCommand, severity := some severity },
    timestamp := 0 }

/-- Result of commandHandler.ts `handleEvent`: the mutated backend, the
events returned to the caller, and the character-error events pushed
through the `onErrorEvent` callback (the source never returns errors in
the result list). -/
structure HandleEventResult where
  db : Db
  returned : List GameEvent
  errorEvents : List GameEvent
deriving DecidableEq

/-- commandHandler.ts `handleEvent`: a string switch over the event kind.
Known kinds are routed to their handler, whose events are returned; a
handler rejection is caught here and converted to a high-severity
characterError through the `onErrorEvent` callback, with an empty result.
Unknown kinds (everything not among move/speak/pickup/drop/checkTasks,
including `heard`) produce a medium-severity characterError and an empty
result.  The checkTasks handler is LLM-driven and externally specified,
so it is taken as the argument `checkTasks`; `freshItemId` stands for the
pickup handler's `uuidv4()` call. -/
def CommandHandler.handleEvent
    (checkTasks : Db → GameEvent → Except String (Db × List GameEvent))
    (freshItemId : String) (db : Db) (e : GameEvent) : HandleEventResult :=
  let caught := fun (msg : String) =>
    { db := db, returned := [],
      errorEvents := [ErrorService.createCharacterError e.parameters.entityId
        e.parameters.worldId msg e.functionCall none "high"] }
  match e.functionCall with
  | "move" =>
      match e.parameters.targetPosition with
      | none => caught "Failed to execute move action"
      | some tp =>
          match MoveEventHandler.handleMoveDecision db e.parameters.entityId
              e.parameters.worldId tp with
          | .error _ => caught "Failed to execute move action"
          | .ok (db1, evs) => { db := db1, returned := evs, errorEvents := [] }
  | "speak" =>
      match SpeakEventHandler.handleSpeakDecision db e.parameters.entityId
          e.parameters.worldId (e.parameters.message.getD "")
          (e.parameters.volume.getD 5) with
      | .error _ => caught "Failed to execute speak action"
      | .ok evs => { db := db, returned := evs, errorEvents := [] }
  | "pickup" =>
      match PickupEventHandler.handlePickupDecision db e.parameters.entityId
          e.parameters.worldId (e.parameters.assetId.getD "")
          (e.parameters.description.getD "")
          (e.parameters.relativePosition.getD { x := 0, y := 0, z := 0 }) freshItemId with
      | .error _ => caught "Failed to execute pickup action"
      | .ok (db1, evs) => { db := db1, returned := evs, errorEvents := [] }
  | "drop" =>
      match DropEventHandler.handleDropDecision db e.parameters.entityId
          e.parameters.worldId (e.parameters.itemInstanceId.getD "") with
      | .error _ => caught "Failed to execute drop action"
      | .ok (db1, evs) => { db := db1, returned := evs, errorEvents := [] }
  | "checkTasks" =>
      match checkTasks db e with
      | .error _ => caught "Failed to execute checkTasks action"
      | .ok (db1, evs) => { db := db1, returned := evs, errorEvents := [] }
  | _ =>
      { db := db, returned := [],
        errorEvents := [ErrorService.createCharacterError e.parameters.entityId
          e.parameters.worldId ("Unknown action type: " ++ e.functionCall)
          "event" none "medium"] }

/-- The parameter struct of an oracle decision (shared/types.ts
`LLMDecision.parameters`): action parameters only; `entityId` and
`worldId` are supplied by the command handler when it builds the event. -/
structure DecisionParams where
  targetPosition : Option Position := none
  message : Option String := none
  volume : Option ℚ := none
  assetId : Option String := none
  description : Option String := none
  relativePosition : Option Position := none
  itemInstanceId : Option String := none
deriving DecidableEq

/-- shared/types.ts `LLMDecision`. -/
structure LLMDecision where
  functionCall : String
  parameters : DecisionParams
  reasoning : Option String := none
deriving DecidableEq

/-- commandHandler.ts `processCommand`: `parameters: { entityId, worldId,
...decision.parameters }`. -/
def mergeDecisionParams (entityId worldId : String) (p : DecisionParams) : EventParams :=
  { entityId := entityId, worldId := worldId,
    targetPosition := p.targetPosition, message := p.message, volume := p.volume,
    assetId := p.assetId, description := p.description,
    relativePosition := p.relativePosition, itemInstanceId := p.itemInstanceId }

/-- The audit event commandHandler.ts `processCommand` synthesizes first. -/
def mkUserCommandEvent (entityId worldId command source : String) : GameEvent :=
  { id := "", functionCall := "userCommand",
    parameters := { entityId := entityId, worldId := worldId,
                    command := some command, source := some source },
    timestamp := 0 }

/-- Result of commandHandler.ts `processCommand`, split the same way as
`HandleEventResult`: the returned event list versus the characterError
events pushed through the `onErrorEvent` callback. -/
structure ProcessCommandResult where
  db : Db
  returned : List GameEvent
  errorEvents : List GameEvent
deriving DecidableEq

/-- commandHandler.ts `processCommand`: synthesize the userCommand audit
event first; ask the oracle (`decision` is its already-obtained answer).
`None` emits a low-severity characterError through `onErrorEvent` and
returns only the audit event.  A `move` decision is routed directly
through `MoveEventHandler.handleMoveDecision` (a rejection there reaches
the surrounding catch: high-severity characterError, only the audit event
returned); any other decision is wrapped into an event and dispatched via
`handleEvent`, which catches its own handler failures.  The memory writes
are elided: they produce no events. -/
def CommandHandler.processCommand
    (checkTasks : Db → GameEvent → Except String (Db × List GameEvent))
    (freshItemId : String) (db : Db) (entityId worldId command source : String)
    (decision : Option LLMDecision) : ProcessCommandResult :=
  let userCommandEvent := mkUserCommandEvent entityId worldId command source
  match decision with
  | none =>
      { db := db, returned := [userCommandEvent],
        errorEvents := [ErrorService.createCharacterError entityId worldId
          "No decision could be generated for this command" "command"
          (some command) "low"] }
  | some d =>
      if d.functionCall = "move" then
        match d.parameters.targetPosition with
        | none =>
            { db := db, returned := [userCommandEvent],
              errorEvents := [ErrorService.createCharacterError entityId worldId
                "Failed to process command due to system error" "command"
                (some command) "high"] }
        | some tp =>
            match MoveEventHandler.handleMoveDecision db entityId worldId tp with
            | .error _ =>
                { db := db, returned := [userCommandEvent],
                  errorEvents := [ErrorService.createCharacterError entityId worldId
                    "Failed to process command due to system error" "command"
                    (some command) "high"] }
            | .ok (db1, evs) =>
                { db := db1, returned := userCommandEvent :: evs, errorEvents := [] }
      else
        let ev : GameEvent :=
          { id := "", functionCall := d.functionCall,
            parameters := mergeDecisionParams entityId worldId d.parameters,
            timestamp := 0 }
        let r := CommandHandler.handleEvent checkTasks freshItemId db ev
        { db := r.db, returned := userCommandEvent :: r.returned,
          errorEvents := r.errorEvents }

/-- The checkTasks event the scheduler synthesizes (services of the
30-second CronjobService variant), with `triggeredBy: 'interval'`. -/
def mkCheckTasksEvent (worldId entityId : String) (now : ℤ) : GameEvent :=
  { id := "", functionCall := "checkTasks",
    parameters := { entityId := entityId, worldId := worldId,
                    triggeredBy := some "interval" },
    timestamp := now }

/-- CronjobService `executeScheduledTasks`, idle-scan phase: the filter
applied to the fetched recent events for one entity — events of that
entity, not of kind checkTasks, younger than 30000 ms. -/
def CronjobService.entityRecentActivity (recentEvents : List GameEvent) (now : ℤ)
    (entityId : String) : List GameEvent :=
  recentEvents.filter (fun ev =>
    ev.parameters.entityId == entityId &&
    ev.functionCall != "checkTasks" &&
    decide (now - ev.timestamp < 30000))

/-- CronjobService `executeScheduledTasks`, idle-scan phase: for each
entity of the world whose recent activity (as above) is empty, synthesize
one checkTasks event; active entities are skipped.  `allEntities` and
`recentEvents` are the two lists the source fetches from the backend at
the start of the phase. -/
def CronjobService.idleCheckTasksEvents (worldId : String) (allEntities : List Entity)
    (recentEvents : List GameEvent) (now : ℤ) : List GameEvent :=
  (allEntities.filter (fun ent =>
      (CronjobService.entityRecentActivity recentEvents now ent.id).length == 0)).map
    (fun ent => mkCheckTasksEvent worldId ent.id now)

/-- A JS number as seen by `typeof x === 'number'`: finite values, NaN and
the two infinities are all numbers. -/
inductive JsNum where
  | fin (q : ℚ)
  | nan
  | posInf
  | negInf
deriving DecidableEq

/-- A JS value in a coordinate slot: a number, `undefined`, or anything
else (string, object, ...). -/
inductive JsVal where
  | num (n : JsNum)
  | undef
  | other
deriving DecidableEq

/-- The check `typeof v === 'number'`. -/
def JsVal.isNumber : JsVal → Bool
  | .num _ => true
  | _ => false

/-- Whether the value is a finite number (`Number.isFinite`); the source
never performs this check. -/
def JsVal.isFiniteNumber : JsVal → Bool
  | .num (.fin _) => true
  | _ => false

/-- A position object whose coordinate slots hold raw JS values. -/
structure JsPos where
  x : JsVal
  y : JsVal
  z : JsVal
deriving DecidableEq

/-- moveEventHandler.ts coordinate validation:
`typeof p.x === 'number' && typeof p.y === 'number' && typeof p.z === 'number'`. -/
def jsPosValid (p : JsPos) : Bool :=
  p.x.isNumber && p.y.isNumber && p.z.isNumber

/-- An entity as the JS-level move handler sees it: its id and a possibly
missing, possibly malformed position. -/
structure JsEntity where
  id : String
  position : Option JsPos
deriving DecidableEq

/-- Outcome of the JS-level move handler: the rejection it threw, if any,
and the position passed to `database.updateEntityPosition`, if reached. -/
structure MoveJsOutcome where
  error : Option String
  persistedPosition : Option JsPos
deriving DecidableEq

/-- moveEventHandler.ts `handleMoveDecision` at the JS value level,
tracking exactly the validation gates the source runs before its
persistence write: reject if `targetPosition` is falsy; reject if any of
its coordinates fails `typeof === 'number'`; reject if the entity is
missing, its position missing or type-invalid.  After these gates
`calculatePathSegments` re-runs the same `typeof` checks on the same two
positions (they pass) and returns the single segment, whose endpoint
checks also re-test the same values; the handler then calls
`database.updateEntityPosition(entityId, targetPosition)`.  NaN and the
infinities are of type number, so they pass every gate. -/
def MoveEventHandler.handleMoveDecisionJs (entity : Option JsEntity)
    (targetPosition : Option JsPos) : MoveJsOutcome :=
  match targetPosition with
  | none => { error := some "Target position is undefined", persistedPosition := none }
  | some tp =>
      if ¬ jsPosValid tp then
        { error := some "Invalid target position coordinates", persistedPosition := none }
      else
        match entity with
        | none => { error := some "Entity not found", persistedPosition := none }
        | some ent =>
            match ent.position with
            | none => { error := some "Entity has undefined position",
                        persistedPosition := none }
            | some ep =>
                if ¬ jsPosValid ep then
                  { error := some "Entity has invalid position coordinates",
                    persistedPosition := none }
                else
                  { error := none, persistedPosition := some tp }

/-- Concrete fixture: alice at the origin of world "default". -/
def aliceEntity : Entity :=
  { id := "alice", name := "alice", worldId := "default",
    position := { x := 0, y := 0, z := 0 },
    bodyParts := ["human_head", "human_torso", "human_legs"],
    itemInstances := [] }

/-- Concrete fixture: bob five units from the origin in world "default". -/
def bobEntity : Entity :=
  { id := "bob", name := "bob", worldId := "default",
    position := { x := 5, y := 0, z := 0 },
    bodyParts := ["human_head", "human_torso", "human_legs"],
    itemInstances := [] }

/-- Concrete fixture: a world state holding alice and bob. -/
def demoState : GameState :=
  { worldId := "default", entities := [aliceEntity, bobEntity], recentEvents := [] }

/-- Concrete fixture: the matching backend contents. -/
def demoDb : Db :=
  { entities := [aliceEntity, bobEntity], eventLog := [] }

/-- Concrete fixture: a persistence backend that accepts every write. -/
def persistAlwaysOk : GameEvent → Option String :=
  fun _ => none

/-- Concrete fixture: a checkTasks handler that decides to observe
(no events). -/
def checkTasksObserve : Db → GameEvent → Except String (Db × List GameEvent) :=
  fun db _ => .ok (db, [])

/-- Concrete fixture: a persistence backend that rejects every write. -/
def persistAlwaysFail : GameEvent → Option String :=
  fun _ => some "db down"

/-- Concrete fixture: a speak event tagged with a foreign world id. -/
def crossWorldSpeak : GameEvent :=
  mkSpeechEvent "alice" "otherworld" "hi" 1

/-- Concrete fixture: a speak event of the engine's own world. -/
def demoSpeak : GameEvent :=
  mkSpeechEvent "alice" "default" "hi" 1

/-- Concrete fixture: a sword item instance. -/
def swordItem : ItemInstance :=
  { id := "sword-1", assetId := "sword", description := "A sword",
    relativePosition := { x := 0, y := 0, z := 0 } }

/-- Concrete fixture: alice holding the sword. -/
def aliceWithSword : Entity :=
  { aliceEntity with itemInstances := [swordItem] }

/-- Concrete fixture: backend contents with alice holding the sword. -/
def dbWithSword : Db :=
  { entities := [aliceWithSword, bobEntity], eventLog := [] }

/-- Concrete fixture: a target position whose x coordinate is NaN (its
other coordinates are finite numbers). -/
def nanJsPos : JsPos :=
  { x := JsVal.num JsNum.nan, y := JsVal.num (JsNum.fin 0), z := JsVal.num (JsNum.fin 0) }

/-- Concrete fixture: a JS-level entity with a well-formed position. -/
def aliceJsEntity : JsEntity :=
  { id := "alice",
    position := some { x := JsVal.num (JsNum.fin 0), y := JsVal.num (JsNum.fin 0),
                       z := JsVal.num (JsNum.fin 0) } }

/-- Concrete fixture: a recent non-checkTasks event of bob, 5 seconds old
at scheduler time 100000. -/
def bobRecentMove : GameEvent :=
  { id := "", functionCall := "move",
    parameters := { entityId := "bob", worldId := "default" },
    timestamp := 95000 }

/-- Bridging lemma: the decidable comparison `distWithin d2 r` agrees with
the source's floating comparison `Math.sqrt d2 <= r` read over the reals. -/
theorem distWithin_iff_sqrt_le (d2 r : ℚ) :
    distWithin d2 r = true ↔ Real.sqrt (d2 : ℝ) ≤ (r : ℝ) := by
  rw [Real.sqrt_le_iff]
  simp only [distWithin, Bool.and_eq_true, decide_eq_true_eq]
  constructor
  · rintro ⟨h1, h2⟩
    refine ⟨by exact_mod_cast h1, ?_⟩
    have h3 : ((d2 : ℚ) : ℝ) ≤ ((r * r : ℚ) : ℝ) := by exact_mod_cast h2
    calc ((d2 : ℚ) : ℝ) ≤ ((r * r : ℚ) : ℝ) := h3
      _ = (r : ℝ) ^ 2 := by push_cast; ring
  · rintro ⟨h1, h2⟩
    refine ⟨by exact_mod_cast h1, ?_⟩
    have h3 : ((d2 : ℚ) : ℝ) ≤ ((r * r : ℚ) : ℝ) := by
      rw [show ((r * r : ℚ) : ℝ) = (r : ℝ) ^ 2 by push_cast; ring]
      exact h2
    exact_mod_cast h3

/-- Bridging lemma: `roundSqrtQ` computes `Math.round (Math.sqrt q)`, that
is, round-half-up of the real square root. -/
theorem roundSqrtQ_eq_floor (q : ℚ) (hq : 0 ≤ q) :
    roundSqrtQ q = ⌊Real.sqrt (q : ℝ) + 1 / 2⌋₊ := by
  have hb : 0 < q.den := q.den_pos
  have hbR : (0 : ℝ) < (q.den : ℝ) := by exact_mod_cast hb
  have hnum : ((q.num.toNat : ℤ)) = q.num := Int.toNat_of_nonneg (Rat.num_nonneg.mpr hq)
  have hcast : (q : ℝ) = ((q.num.toNat * q.den : ℕ) : ℝ) / ((q.den : ℝ)) ^ 2 := by
    have hnn : ((q.num.toNat : ℕ) : ℝ) = (q.num : ℝ) := by exact_mod_cast hnum
    rw [Rat.cast_def]
    push_cast
    rw [hnn]
    field_simp
    ring
  have hs : Real.sqrt (q : ℝ) =
      Real.sqrt ((q.num.toNat * q.den : ℕ) : ℝ) / (q.den : ℝ) := by
    rw [hcast, Real.sqrt_div (by positivity), Real.sqrt_sq hbR.le]
  have hmain : Real.sqrt (q : ℝ) + 1 / 2 =
      (2 * Real.sqrt ((q.num.toNat * q.den : ℕ) : ℝ) + (q.den : ℝ)) /
        ((2 * q.den : ℕ) : ℝ) := by
    rw [hs]
    push_cast
    field_simp
    ring
  have h2s : 2 * Real.sqrt ((q.num.toNat * q.den : ℕ) : ℝ) =
      Real.sqrt ((4 * q.num.toNat * q.den : ℕ) : ℝ) := by
    rw [show ((4 * q.num.toNat * q.den : ℕ) : ℝ) =
          (2 : ℝ) ^ 2 * ((q.num.toNat * q.den : ℕ) : ℝ) by push_cast; ring,
        Real.sqrt_mul (by positivity), Real.sqrt_sq (by norm_num)]
  rw [roundSqrtQ, hmain, Nat.floor_div_nat, h2s, Nat.floor_add_nat (Real.sqrt_nonneg _),
    Real.nat_floor_real_sqrt_eq_nat_sqrt]

/-- The squared distance is nonnegative. -/
theorem calculateDistanceSq_nonneg (p1 p2 : Position) : 0 ≤ calculateDistanceSq p1 p2 := by
  unfold calculateDistanceSq
  positivity

/-- Counting helper: in a list of entities with pairwise distinct ids, the
number of members matching a given member's id and a predicate is one or
zero according to the predicate at that member. -/
theorem countP_keyed (p : Entity → Bool) (ent : Entity) :
    ∀ (l : List Entity), l.Pairwise (fun a b => a.id ≠ b.id) → ent ∈ l →
      l.countP (fun a => a.id == ent.id && p a) = if p ent then 1 else 0 := by
  intro l
  induction l with
  | nil => intro _ h; cases h
  | cons a t ih =>
      intro hp hm
      rw [List.pairwise_cons] at hp
      rw [List.countP_cons]
      rcases List.mem_cons.mp hm with rfl | hmt
      · have ht : t.countP (fun b => b.id == ent.id && p b) = 0 :=
          List.countP_eq_zero.mpr (by
            intro b hb
            simp only [Bool.and_eq_true, beq_iff_eq, not_and]
            intro hbid
            exact absurd hbid.symm (hp.1 b hb))
        simp [ht]
      · have hne : (a.id == ent.id) = false := by
          simp only [beq_eq_false_iff_ne, ne_eq]
          exact hp.1 ent hmt
        rw [ih hp.2 hmt]
        simp [hne]

/-- Lookup after an entity-map that preserves ids hits the same entity,
transformed. -/
theorem getEntity_map_preserving (db : Db) (f : Entity → Entity) (entityId : String)
    (hf : ∀ e, (f e).id = e.id) :
    Db.getEntity { db with entities := db.entities.map f } entityId =
      (Db.getEntity db entityId).map f := by
  unfold Db.getEntity
  have hpred : ((fun e : Entity => e.id == entityId) ∘ f) =
      (fun e : Entity => e.id == entityId) := by
    funext e
    simp [Function.comp, hf]
  rw [List.find?_map, hpred]

/-- C1 (amended).  A cross-world event ingested by `GameEngine.addEvent`
leaves the world state and the backend untouched and raises no rejection
(it is dropped silently, before persistence); however, the websocket
layer's `processGameEngineEvent` still broadcasts the event to connected
clients, because its broadcast is unconditional once `addEvent` returns. -/
theorem C1_cross_world_drop_state_but_broadcast (fp : GameEvent → Option String) (n : ℕ)
    (db : Db) (s : GameState) (e : GameEvent) (h : e.parameters.worldId ≠ s.worldId) :
    GameEngine.addEvent fp (n + 1) db s e = { db := db, state := s, err := none } ∧
    (GameWebSocketServer.processGameEngineEvent fp (n + 1) db s e).2 = [e] := by
  have ha : GameEngine.addEvent fp (n + 1) db s e = { db := db, state := s, err := none } := by
    unfold GameEngine.addEvent
    rw [if_pos h]
  refine ⟨ha, ?_⟩
  unfold GameWebSocketServer.processGameEngineEvent
  rw [ha]

/-- C1 witness: the amended theorem evaluated on a concrete cross-world
speak event over the demo world. -/
theorem C1_cross_world_witness :
    GameEngine.addEvent persistAlwaysOk 5 demoDb demoState crossWorldSpeak =
      { db := demoDb, state := demoState, err := none } ∧
    (GameWebSocketServer.processGameEngineEvent persistAlwaysOk 5 demoDb demoState
        crossWorldSpeak).2 = [crossWorldSpeak] :=
  C1_cross_world_drop_state_but_broadcast persistAlwaysOk 4 demoDb demoState crossWorldSpeak
    (by decide)

/-- C1 counterexample: the claim asserts that no broadcast of a
cross-world event occurs, but on the concrete cross-world event the
websocket layer broadcasts it (while the engine state and backend are
indeed unchanged and nothing is persisted). -/
theorem C1_broadcast_counterexample :
    (GameWebSocketServer.processGameEngineEvent persistAlwaysOk 5 demoDb demoState
        crossWorldSpeak).2 ≠ [] ∧
    (GameEngine.addEvent persistAlwaysOk 5 demoDb demoState crossWorldSpeak).state =
      demoState ∧
    (GameEngine.addEvent persistAlwaysOk 5 demoDb demoState crossWorldSpeak).db = demoDb := by
  decide

/-- C8 (confirmed).  In `addEvent` persistence precedes application: when
the backend rejects the save of a same-world event, the in-memory state
and the backend are returned unchanged, the rejection propagates to the
caller in the result, and the websocket layer broadcasts nothing. -/
theorem C8_persist_failure_no_mutation (fp : GameEvent → Option String) (n : ℕ)
    (db : Db) (s : GameState) (e : GameEvent) (msg : String)
    (hw : e.parameters.worldId = s.worldId) (hf : fp e = some msg) :
    GameEngine.addEvent fp (n + 1) db s e = { db := db, state := s, err := some msg } ∧
    (GameWebSocketServer.processGameEngineEvent fp (n + 1) db s e).2 = [] := by
  have ha : GameEngine.addEvent fp (n + 1) db s e =
      { db := db, state := s, err := some msg } := by
    unfold GameEngine.addEvent
    rw [if_neg (by simp [hw]), hf]
  refine ⟨ha, ?_⟩
  unfold GameWebSocketServer.processGameEngineEvent
  rw [ha]

/-- C8 witness: the theorem evaluated on a concrete same-world speak event
against a backend that rejects every write. -/
theorem C8_persist_failure_witness :
    GameEngine.addEvent persistAlwaysFail 5 demoDb demoState demoSpeak =
      { db := demoDb, state := demoState, err := some "db down" } ∧
    (GameWebSocketServer.processGameEngineEvent persistAlwaysFail 5 demoDb demoState
        demoSpeak).2 = [] :=
  C8_persist_failure_no_mutation persistAlwaysFail 4 demoDb demoState demoSpeak "db down"
    rfl rfl

/-- C5 (confirmed).  `heard` is a leaf kind: the engine synthesizes no
derived events from a heard event, the command handler's dispatch returns
no events for it (it falls into the unknown-kind arm), and more generally
every event the engine derives is itself a heard event deriving nothing,
so a speak cascade terminates after one level. -/
theorem C5_heard_is_leaf (s : GameState) (e : GameEvent) (h : e.functionCall = "heard") :
    GameEngine.deriveEvents s e = [] ∧
    (∀ ct fid db, (CommandHandler.handleEvent ct fid db e).returned = []) ∧
    (∀ (s1 s2 : GameState) (e1 d : GameEvent),
      d ∈ GameEngine.deriveEvents s1 e1 → GameEngine.deriveEvents s2 d = []) := by
  refine ⟨?_, ?_, ?_⟩
  · unfold GameEngine.deriveEvents
    split
    · next heq => rw [h] at heq; simp at heq
    · rfl
  · intro ct fid db
    unfold CommandHandler.handleEvent
    split
    · next heq => rw [h] at heq; simp at heq
    · next heq => rw [h] at heq; simp at heq
    · next heq => rw [h] at heq; simp at heq
    · next heq => rw [h] at heq; simp at heq
    · next heq => rw [h] at heq; simp at heq
    · rfl
  · intro s1 s2 e1 d hd
    unfold GameEngine.deriveEvents at hd
    split at hd
    · next heq =>
        unfold GameEngine.processSpeakEventDerived at hd
        cases hfind : s1.findEntity e1.parameters.entityId with
        | none => rw [hfind] at hd; cases hd
        | some sp =>
            rw [hfind] at hd
            obtain ⟨ent, hent, hde⟩ := List.mem_map.mp hd
            unfold GameEngine.deriveEvents
            split
            · next heq2 => rw [← hde] at heq2; simp [mkHeardEvent] at heq2
            · rfl
    · cases hd

/-- C5 witness: the leaf property evaluated on a concrete heard event. -/
theorem C5_heard_is_leaf_witness :
    GameEngine.deriveEvents demoState (mkHeardEvent "default" "alice" "bob" (some "hi") 25) =
      [] :=
  (C5_heard_is_leaf demoState (mkHeardEvent "default" "alice" "bob" (some "hi") 25) rfl).1

/-- C3 (confirmed).  Every move decision yields a single straight segment
from the entity's current position to the target, the final position is
persisted once, each segment's duration is
`max(500, round(distance * 1250))` milliseconds with `distance` the
Euclidean distance between the segment's endpoints, and on the concrete
scenario (0,0,0) to (5,0,3) the duration is 7289 ms
(`round(sqrt 34 * 1250)`, the value the spec approximates as 7288). -/
theorem C3_move_single_segment_duration (db : Db) (entityId worldId : String)
    (target : Position) (entity : Entity) (h : Db.getEntity db entityId = some entity) :
    MoveEventHandler.handleMoveDecision db entityId worldId target =
      .ok (Db.updateEntityPosition db entityId target,
           [mkMoveEvent entityId worldId entity.position target]) ∧
    (∀ p q : Position, MoveEventHandler.calculateMovementDuration p q =
        max 500 ⌊Real.sqrt (calculateDistanceSq p q : ℝ) * 1250 + 1 / 2⌋₊) ∧
    MoveEventHandler.calculateMovementDuration
      { x := 0, y := 0, z := 0 } { x := 5, y := 0, z := 3 } = 7289 := by
  have hdur : ∀ p q : Position, MoveEventHandler.calculateMovementDuration p q =
      max 500 ⌊Real.sqrt (calculateDistanceSq p q : ℝ) * 1250 + 1 / 2⌋₊ := by
    intro p q
    unfold MoveEventHandler.calculateMovementDuration
    rw [roundSqrtQ_eq_floor _
      (mul_nonneg (calculateDistanceSq_nonneg p q) (by norm_num))]
    congr 2
    rw [show ((calculateDistanceSq p q * 1562500 : ℚ) : ℝ) =
          (calculateDistanceSq p q : ℝ) * 1250 ^ 2 by push_cast; ring]
    rw [Real.sqrt_mul (by exact_mod_cast calculateDistanceSq_nonneg p q),
      Real.sqrt_sq (by norm_num)]
  refine ⟨?_, hdur, ?_⟩
  · unfold MoveEventHandler.handleMoveDecision MoveEventHandler.calculatePathSegments
    rw [h]
    simp
  · rw [hdur]
    have hd2 : calculateDistanceSq { x := 0, y := 0, z := 0 } { x := 5, y := 0, z := 3 } =
        (34 : ℚ) := by
      norm_num [calculateDistanceSq]
    rw [hd2, show (((34 : ℚ)) : ℝ) = (34 : ℝ) by norm_num]
    have hfloor : ⌊Real.sqrt 34 * 1250 + 1 / 2⌋₊ = 7289 := by
      rw [Nat.floor_eq_iff (by positivity)]
      constructor
      · have h58 : (58308 / 10000 : ℝ) ≤ Real.sqrt 34 := by
          rw [Real.le_sqrt (by norm_num) (by norm_num)]
          norm_num
        nlinarith [h58]
      · have h59 : Real.sqrt 34 < (58316 / 10000 : ℝ) := by
          rw [Real.sqrt_lt' (by norm_num)]
          norm_num
        nlinarith [h59]
    rw [hfloor]
    norm_num

/-- C3 witness: the theorem evaluated for alice moving in the demo world. -/
theorem C3_move_witness :
    MoveEventHandler.handleMoveDecision demoDb "alice" "default" { x := 5, y := 0, z := 3 } =
      .ok (Db.updateEntityPosition demoDb "alice" { x := 5, y := 0, z := 3 },
           [mkMoveEvent "alice" "default" aliceEntity.position { x := 5, y := 0, z := 3 }]) ∧
    MoveEventHandler.calculateMovementDuration
      { x := 0, y := 0, z := 0 } { x := 5, y := 0, z := 3 } = 7289 :=
  ⟨(C3_move_single_segment_duration demoDb "alice" "default" { x := 5, y := 0, z := 3 }
      aliceEntity rfl).1,
   (C3_move_single_segment_duration demoDb "alice" "default" { x := 5, y := 0, z := 3 }
      aliceEntity rfl).2.2⟩

/-- C4 (amended).  When the oracle returns no decision, `processCommand`
emits exactly one low-severity characterError — through the
`onErrorEvent` callback, not in its result — and its returned event list
is exactly the userCommand audit event alone, with zero domain events and
no backend change. -/
theorem C4_no_decision_audit_only
    (ct : Db → GameEvent → Except String (Db × List GameEvent)) (fid : String) (db : Db)
    (entityId worldId command source : String) :
    CommandHandler.processCommand ct fid db entityId worldId command source none =
      { db := db,
        returned := [mkUserCommandEvent entityId worldId command source],
        errorEvents := [ErrorService.createCharacterError entityId worldId
          "No decision could be generated for this command" "command"
          (some command) "low"] } ∧
    (CommandHandler.processCommand ct fid db entityId worldId command source
        none).errorEvents.map (fun ev => ev.parameters.severity) = [some "low"] :=
  ⟨rfl, rfl⟩

/-- C4 counterexample: on a concrete no-decision run the returned list
holds exactly the userCommand audit event — the claim's expectation that
the low-severity characterError is also part of the returned result list
fails, as no characterError is returned at all. -/
theorem C4_returned_list_counterexample :
    (CommandHandler.processCommand checkTasksObserve "item-1" demoDb "alice" "default"
        "wave" "manual" none).returned.map (fun ev => ev.functionCall) = ["userCommand"] ∧
    (CommandHandler.processCommand checkTasksObserve "item-1" demoDb "alice" "default"
        "wave" "manual" none).returned.length = 1 ∧
    (∀ ev ∈ (CommandHandler.processCommand checkTasksObserve "item-1" demoDb "alice"
        "default" "wave" "manual" none).returned, ev.functionCall ≠ "characterError") := by
  decide

/-- C6 (confirmed).  On the idle-scan phase of a scheduler tick, a
checkTasks event is synthesized for an entity of the world if and only if
that entity has zero non-checkTasks events younger than 30 seconds among
the fetched recent events; entities with any such recent event are
skipped. -/
theorem C6_idle_scan_iff (worldId : String) (entities : List Entity)
    (recentEvents : List GameEvent) (now : ℤ) (ent : Entity) (h : ent ∈ entities) :
    (∃ ev ∈ CronjobService.idleCheckTasksEvents worldId entities recentEvents now,
        ev.parameters.entityId = ent.id) ↔
      CronjobService.entityRecentActivity recentEvents now ent.id = [] := by
  unfold CronjobService.idleCheckTasksEvents
  constructor
  · rintro ⟨ev, hev, hid⟩
    obtain ⟨ent2, hent2, rfl⟩ := List.mem_map.mp hev
    obtain ⟨-, hlen⟩ := List.mem_filter.mp hent2
    have hid2 : ent2.id = ent.id := hid
    rw [← List.length_eq_zero, ← hid2]
    simpa using hlen
  · intro hempty
    refine ⟨mkCheckTasksEvent worldId ent.id now, ?_, rfl⟩
    apply List.mem_map_of_mem
    refine List.mem_filter.mpr ⟨h, ?_⟩
    simp [hempty]

/-- C6 witness: with bob having a 5-second-old move event at tick time
100000 and alice having none, the idle scan synthesizes for alice. -/
theorem C6_idle_scan_witness :
    (∃ ev ∈ CronjobService.idleCheckTasksEvents "default" [aliceEntity, bobEntity]
        [bobRecentMove] 100000, ev.parameters.entityId = aliceEntity.id) ↔
      CronjobService.entityRecentActivity [bobRecentMove] 100000 aliceEntity.id = [] :=
  C6_idle_scan_iff "default" [aliceEntity, bobEntity] [bobRecentMove] 100000 aliceEntity
    (List.mem_cons_self _ _)

/-- Backend lookup after an item-instance removal: the same entity, with
the instance filtered out of its inventory. -/
theorem getEntity_removeItem (db : Db) (itemInstanceId entityId : String) :
    Db.getEntity (Db.removeItemInstanceFromEntity db itemInstanceId) entityId =
      (Db.getEntity db entityId).map (fun e =>
        { e with itemInstances := e.itemInstances.filter (fun it => it.id != itemInstanceId) }) :=
  getEntity_map_preserving db _ entityId (fun _ => rfl)

/-- Backend lookup after a position update. -/
theorem getEntity_updatePosition (db : Db) (entityId : String) (pos : Position)
    (entity : Entity) (h : Db.getEntity db entityId = some entity) :
    Db.getEntity (Db.updateEntityPosition db entityId pos) entityId =
      some { entity with position := pos } := by
  have h' : db.entities.find? (fun e => e.id == entityId) = some entity := h
  have hid0 := List.find?_some h'
  have hid : (entity.id == entityId) = true := hid0
  have step1 : Db.getEntity (Db.updateEntityPosition db entityId pos) entityId =
      (Db.getEntity db entityId).map
        (fun e => if e.id == entityId then { e with position := pos } else e) :=
    getEntity_map_preserving db
      (fun e => if e.id == entityId then { e with position := pos } else e) entityId
      (fun e => by dsimp only; split <;> rfl)
  rw [step1, h, Option.map_some']
  rw [if_pos hid]

/-- Backend lookup after an item-instance addition. -/
theorem getEntity_addItem (db : Db) (entityId : String) (item : ItemInstance)
    (entity : Entity) (h : Db.getEntity db entityId = some entity) :
    Db.getEntity (Db.addItemInstanceToEntity db entityId item) entityId =
      some { entity with itemInstances := entity.itemInstances ++ [item] } := by
  have h' : db.entities.find? (fun e => e.id == entityId) = some entity := h
  have hid0 := List.find?_some h'
  have hid : (entity.id == entityId) = true := hid0
  have step1 : Db.getEntity (Db.addItemInstanceToEntity db entityId item) entityId =
      (Db.getEntity db entityId).map
        (fun e => if e.id == entityId then { e with itemInstances := e.itemInstances ++ [item] }
                  else e) :=
    getEntity_map_preserving db
      (fun e => if e.id == entityId then { e with itemInstances := e.itemInstances ++ [item] }
                else e) entityId
      (fun e => by dsimp only; split <;> rfl)
  rw [step1, h, Option.map_some']
  rw [if_pos hid]

/-- C7 (confirmed).  A drop decision whose item instance id is absent from
the actor's inventory rejects with a domain error and produces zero
events; when present, the instance is removed from the inventory and
exactly one drop event carrying the actor's current position is
returned. -/
theorem C7_drop_inventory_check (db : Db) (entityId worldId itemInstanceId : String)
    (entity : Entity) (h : Db.getEntity db entityId = some entity) :
    (entity.itemInstances.find? (fun it => it.id == itemInstanceId) = none →
      DropEventHandler.handleDropDecision db entityId worldId itemInstanceId =
        .error "Entity does not have item instance") ∧
    (∀ item, entity.itemInstances.find? (fun it => it.id == itemInstanceId) = some item →
      DropEventHandler.handleDropDecision db entityId worldId itemInstanceId =
        .ok (Db.removeItemInstanceFromEntity db itemInstanceId,
             [mkDropEvent entityId worldId itemInstanceId entity.position]) ∧
      Db.getEntity (Db.removeItemInstanceFromEntity db itemInstanceId) entityId =
        some { entity with itemInstances :=
                 entity.itemInstances.filter (fun it => it.id != itemInstanceId) }) := by
  constructor
  · intro hnone
    simp [DropEventHandler.handleDropDecision, h, hnone]
  · intro item hsome
    refine ⟨?_, ?_⟩
    · simp [DropEventHandler.handleDropDecision, h, hsome]
    · rw [getEntity_removeItem, h]
      rfl

/-- C7 witness: alice holds the sword; dropping a missing id rejects, and
dropping the sword emits the one drop event at her position. -/
theorem C7_drop_witness :
    DropEventHandler.handleDropDecision dbWithSword "alice" "default" "missing" =
      .error "Entity does not have item instance" ∧
    DropEventHandler.handleDropDecision dbWithSword "alice" "default" "sword-1" =
      .ok (Db.removeItemInstanceFromEntity dbWithSword "sword-1",
           [mkDropEvent "alice" "default" "sword-1" aliceWithSword.position]) :=
  ⟨(C7_drop_inventory_check dbWithSword "alice" "default" "missing" aliceWithSword rfl).1
      rfl,
   ((C7_drop_inventory_check dbWithSword "alice" "default" "sword-1" aliceWithSword rfl).2
      swordItem rfl).1⟩

/-- C9 (amended).  The move handler's pre-persistence validation is a
`typeof === 'number'` check: a missing target or a coordinate that is not
of number type rejects before any persistence write, and every position
that reaches the persistence write passed that type check — but the check
does not test finiteness, so NaN and infinite coordinates are accepted
(see the counterexample). -/
theorem C9_move_validation_is_typeof (entity : Option JsEntity) (tp : JsPos)
    (h : jsPosValid tp = false) :
    MoveEventHandler.handleMoveDecisionJs entity (some tp) =
      { error := some "Invalid target position coordinates", persistedPosition := none } ∧
    (MoveEventHandler.handleMoveDecisionJs entity none).persistedPosition = none ∧
    (∀ (ent : Option JsEntity) (p : Option JsPos) (tp2 : JsPos),
      (MoveEventHandler.handleMoveDecisionJs ent p).persistedPosition = some tp2 →
      jsPosValid tp2 = true) := by
  refine ⟨?_, ?_, ?_⟩
  · unfold MoveEventHandler.handleMoveDecisionJs
    simp [h]
  · rfl
  · intro ent p tp2 hp
    unfold MoveEventHandler.handleMoveDecisionJs at hp
    rcases p with - | tp3
    · simp at hp
    · dsimp only at hp
      split at hp
      · simp at hp
      · next hc1 =>
          rcases ent with - | je
          · simp at hp
          · dsimp only at hp
            rcases hjp : je.position with - | ep
            · rw [hjp] at hp
              simp at hp
            · rw [hjp] at hp
              dsimp only at hp
              split at hp
              · simp at hp
              · have htp : tp3 = tp2 := by simpa using hp
                rw [← htp]
                simpa using hc1

/-- C9 witness: a target whose x slot is `undefined` is rejected before
persistence. -/
theorem C9_move_validation_witness :
    MoveEventHandler.handleMoveDecisionJs (some aliceJsEntity)
      (some { x := JsVal.undef, y := JsVal.num (JsNum.fin 0), z := JsVal.num (JsNum.fin 0) }) =
      { error := some "Invalid target position coordinates", persistedPosition := none } :=
  (C9_move_validation_is_typeof (some aliceJsEntity)
      { x := JsVal.undef, y := JsVal.num (JsNum.fin 0), z := JsVal.num (JsNum.fin 0) }
      (by decide)).1

/-- C9 counterexample: a NaN x coordinate is of JS number type, so it
passes every validation gate and is handed to the persistence write — the
claim's rejection of non-finite coordinates does not happen. -/
theorem C9_nan_passes_validation :
    MoveEventHandler.handleMoveDecisionJs (some aliceJsEntity) (some nanJsPos) =
      { error := none, persistedPosition := some nanJsPos } ∧
    JsVal.isFiniteNumber nanJsPos.x = false ∧
    JsVal.isNumber nanJsPos.x = true := by
  decide

/-- C10 (confirmed).  Each successful action handler mutates the
persistence backend during handler execution and leaves the event log
untouched — Move writes the final position, Drop removes the item
instance, Pickup adds the new one — and the returned events are saved
later, by `GameEngine.addEvent`; when that later save is rejected, the
engine leaves the backend exactly as the handler left it, so the
handler's mutation is not rolled back. -/
theorem C10_handler_mutations_precede_event_log (db : Db) :
    (∀ (entityId worldId : String) (target : Position) (entity : Entity),
      Db.getEntity db entityId = some entity →
      MoveEventHandler.handleMoveDecision db entityId worldId target =
        .ok (Db.updateEntityPosition db entityId target,
             [mkMoveEvent entityId worldId entity.position target]) ∧
      (Db.updateEntityPosition db entityId target).eventLog = db.eventLog ∧
      Db.getEntity (Db.updateEntityPosition db entityId target) entityId =
        some { entity with position := target }) ∧
    (∀ (entityId worldId itemInstanceId : String) (entity : Entity) (item : ItemInstance),
      Db.getEntity db entityId = some entity →
      entity.itemInstances.find? (fun it => it.id == itemInstanceId) = some item →
      DropEventHandler.handleDropDecision db entityId worldId itemInstanceId =
        .ok (Db.removeItemInstanceFromEntity db itemInstanceId,
             [mkDropEvent entityId worldId itemInstanceId entity.position]) ∧
      (Db.removeItemInstanceFromEntity db itemInstanceId).eventLog = db.eventLog) ∧
    (∀ (entityId worldId assetId description : String) (rp : Position)
        (freshItemId : String) (entity : Entity),
      Db.getEntity db entityId = some entity →
      PickupEventHandler.handlePickupDecision db entityId worldId assetId description rp
          freshItemId =
        .ok (Db.addItemInstanceToEntity db entityId
               { id := freshItemId, assetId := assetId,
                 description := if description = "" then "A " ++ assetId else description,
                 relativePosition := rp },
             [mkPickupEvent entityId worldId freshItemId entity.position rp]) ∧
      (Db.addItemInstanceToEntity db entityId
          { id := freshItemId, assetId := assetId,
            description := if description = "" then "A " ++ assetId else description,
            relativePosition := rp }).eventLog = db.eventLog ∧
      Db.getEntity (Db.addItemInstanceToEntity db entityId
          { id := freshItemId, assetId := assetId,
            description := if description = "" then "A " ++ assetId else description,
            relativePosition := rp }) entityId =
        some { entity with itemInstances := entity.itemInstances ++
                 [{ id := freshItemId, assetId := assetId,
                    description := if description = "" then "A " ++ assetId else description,
                    relativePosition := rp }] }) ∧
    (∀ (fp : GameEvent → Option String) (n : ℕ) (db1 : Db) (s : GameState)
        (ev : GameEvent) (msg : String),
      fp ev = some msg →
      (GameEngine.addEvent fp (n + 1) db1 s ev).db = db1) := by
  refine ⟨?_, ?_, ?_, ?_⟩
  · intro entityId worldId target entity h
    refine ⟨?_, rfl, getEntity_updatePosition db entityId target entity h⟩
    unfold MoveEventHandler.handleMoveDecision MoveEventHandler.calculatePathSegments
    rw [h]
    simp
  · intro entityId worldId itemInstanceId entity item h hsome
    refine ⟨?_, rfl⟩
    simp [DropEventHandler.handleDropDecision, h, hsome]
  · intro entityId worldId assetId description rp freshItemId entity h
    refine ⟨?_, rfl, getEntity_addItem db entityId _ entity h⟩
    simp [PickupEventHandler.handlePickupDecision, h]
  · intro fp n db1 s ev msg hf
    unfold GameEngine.addEvent
    split
    · rfl
    · rw [hf]

/-- C10 witness: the conjunction evaluated over the demo backend where
alice holds the sword. -/
theorem C10_handler_mutations_witness :
    MoveEventHandler.handleMoveDecision dbWithSword "alice" "w" { x := 1, y := 2, z := 3 } =
      .ok (Db.updateEntityPosition dbWithSword "alice" { x := 1, y := 2, z := 3 },
           [mkMoveEvent "alice" "w" aliceWithSword.position { x := 1, y := 2, z := 3 }]) ∧
    (Db.removeItemInstanceFromEntity dbWithSword "sword-1").eventLog =
      dbWithSword.eventLog ∧
    (GameEngine.addEvent persistAlwaysFail 5
        (Db.removeItemInstanceFromEntity dbWithSword "sword-1") demoState demoSpeak).db =
      Db.removeItemInstanceFromEntity dbWithSword "sword-1" :=
  ⟨((C10_handler_mutations_precede_event_log dbWithSword).1 "alice" "w"
      { x := 1, y := 2, z := 3 } aliceWithSword rfl).1,
   ((C10_handler_mutations_precede_event_log dbWithSword).2.1 "alice" "w" "sword-1"
      aliceWithSword swordItem rfl rfl).2,
   (C10_handler_mutations_precede_event_log dbWithSword).2.2.2 persistAlwaysFail 4
      (Db.removeItemInstanceFromEntity dbWithSword "sword-1") demoState demoSpeak
      "db down" rfl⟩

/-- Counting helper for heard-event lists: the synthesized list holds, for
a member of an id-distinct entity list, exactly one event tagged with its
id when the hearing predicate accepts it, and none otherwise. -/
theorem countHeard_eq (l : List Entity) (pred : Entity → Bool) (mkF : Entity → GameEvent)
    (hmk : ∀ a, (mkF a).parameters.entityId = a.id) (ent : Entity)
    (hl : l.Pairwise (fun a b => a.id ≠ b.id)) (hm : ent ∈ l) :
    ((l.filter pred).map mkF).countP (fun ev => ev.parameters.entityId == ent.id) =
      if pred ent then 1 else 0 := by
  rw [List.countP_map]
  have hstep : (l.filter pred).countP
      ((fun ev => ev.parameters.entityId == ent.id) ∘ mkF) =
      l.countP (fun a => ((fun ev => ev.parameters.entityId == ent.id) ∘ mkF) a && pred a) :=
    List.countP_filter _ _ _
  rw [hstep]
  have hfun : (fun a => ((fun ev => ev.parameters.entityId == ent.id) ∘ mkF) a && pred a) =
      (fun a => a.id == ent.id && pred a) := by
    funext a
    simp [Function.comp, hmk a]
  rw [hfun]
  exact countP_keyed pred ent l hl hm

/-- C2 (amended).  The speak handler returns the one speech event followed
by heard events only, with — for id-distinct world entities — exactly one
heard event per other entity whose Euclidean distance from the speaker is
at most the volume (boundary inclusive) and none for entities farther
than the volume.  The engine's own application of a speak event, however,
synthesizes heard events with hearing range `volume * 10` (volume
defaulting to 1), so there an entity receives exactly one heard event
when its distance is at most ten times the volume. -/
theorem C2_speak_hearing_ranges (db : Db) (entityId worldId message : String) (volume : ℚ)
    (speaker : Entity) (h1 : Db.getEntity db entityId = some speaker)
    (h2 : (Db.getEntitiesByWorld db worldId).Pairwise (fun a b => a.id ≠ b.id)) :
    (∃ heardList,
      SpeakEventHandler.handleSpeakDecision db entityId worldId message volume =
        .ok (mkSpeechEvent entityId worldId message volume :: heardList) ∧
      (∀ ev ∈ heardList, ev.functionCall = "heard") ∧
      (∀ ent ∈ Db.getEntitiesByWorld db worldId,
        heardList.countP (fun ev => ev.parameters.entityId == ent.id) =
          if ent.id ≠ entityId ∧
              Real.sqrt (calculateDistanceSq speaker.position ent.position : ℝ) ≤ (volume : ℝ)
          then 1 else 0)) ∧
    (∀ (s : GameState) (e : GameEvent) (sp : Entity),
      e.functionCall = "speak" →
      s.findEntity e.parameters.entityId = some sp →
      s.entities.Pairwise (fun a b => a.id ≠ b.id) →
      ∀ ent ∈ s.entities,
        (GameEngine.deriveEvents s e).countP (fun ev => ev.parameters.entityId == ent.id) =
          if ent.id ≠ e.parameters.entityId ∧
              Real.sqrt (calculateDistanceSq sp.position ent.position : ℝ) ≤
                ((e.parameters.volume.getD 1 : ℚ) : ℝ) * 10
          then 1 else 0) := by
  constructor
  · refine ⟨((Db.getEntitiesByWorld db worldId).filter (fun ent =>
        ent.id != entityId &&
        distWithin (calculateDistanceSq speaker.position ent.position) volume)).map
        (fun ent => mkHeardEvent worldId entityId ent.id (some message)
          (calculateDistanceSq speaker.position ent.position)), ?_, ?_, ?_⟩
    · simp [SpeakEventHandler.handleSpeakDecision, h1]
    · intro ev hev
      obtain ⟨ent, -, hrfl⟩ := List.mem_map.mp hev
      rw [← hrfl]
      rfl
    · intro ent hent
      rw [countHeard_eq _ _ _ (fun a => rfl) ent h2 hent]
      refine if_congr ?_ rfl rfl
      rw [Bool.and_eq_true, bne_iff_ne, distWithin_iff_sqrt_le]
  · intro s e sp hfc hfind hpw ent hent
    have hd : GameEngine.deriveEvents s e = GameEngine.processSpeakEventDerived s e := by
      unfold GameEngine.deriveEvents
      rw [hfc]
      rfl
    rw [hd]
    unfold GameEngine.processSpeakEventDerived
    rw [hfind]
    dsimp only
    rw [countHeard_eq _ _ _ (fun a => rfl) ent hpw hent]
    refine if_congr ?_ rfl rfl
    rw [Bool.and_eq_true, bne_iff_ne, distWithin_iff_sqrt_le]
    constructor
    · rintro ⟨hne, hle⟩
      refine ⟨hne, ?_⟩
      calc Real.sqrt (calculateDistanceSq sp.position ent.position : ℝ)
          ≤ ((e.parameters.volume.getD 1 * 10 : ℚ) : ℝ) := hle
        _ = ((e.parameters.volume.getD 1 : ℚ) : ℝ) * 10 := by push_cast; ring
    · rintro ⟨hne, hle⟩
      refine ⟨hne, ?_⟩
      calc Real.sqrt (calculateDistanceSq sp.position ent.position : ℝ)
          ≤ ((e.parameters.volume.getD 1 : ℚ) : ℝ) * 10 := hle
        _ = ((e.parameters.volume.getD 1 * 10 : ℚ) : ℝ) := by push_cast; ring

/-- C2 witness: the amended theorem evaluated for alice speaking at volume
5 in the demo world. -/
theorem C2_speak_hearing_witness :
    (∃ heardList,
      SpeakEventHandler.handleSpeakDecision demoDb "alice" "default" "hi" 5 =
        .ok (mkSpeechEvent "alice" "default" "hi" 5 :: heardList) ∧
      (∀ ev ∈ heardList, ev.functionCall = "heard") ∧
      (∀ ent ∈ Db.getEntitiesByWorld demoDb "default",
        heardList.countP (fun ev => ev.parameters.entityId == ent.id) =
          if ent.id ≠ "alice" ∧
              Real.sqrt (calculateDistanceSq aliceEntity.position ent.position : ℝ) ≤
                ((5 : ℚ) : ℝ)
          then 1 else 0)) ∧
    (∀ (s : GameState) (e : GameEvent) (sp : Entity),
      e.functionCall = "speak" →
      s.findEntity e.parameters.entityId = some sp →
      s.entities.Pairwise (fun a b => a.id ≠ b.id) →
      ∀ ent ∈ s.entities,
        (GameEngine.deriveEvents s e).countP (fun ev => ev.parameters.entityId == ent.id) =
          if ent.id ≠ e.parameters.entityId ∧
              Real.sqrt (calculateDistanceSq sp.position ent.position : ℝ) ≤
                ((e.parameters.volume.getD 1 : ℚ) : ℝ) * 10
          then 1 else 0) :=
  C2_speak_hearing_ranges demoDb "alice" "default" "hi" 5 aliceEntity rfl (by decide)

/-- C2 counterexample: alice speaks at volume 1 and bob stands at distance
5 — farther than the volume — yet the engine's speak application
synthesizes a heard event for bob (its hearing range is `volume * 10`),
contradicting the claim that no heard event is emitted for entities at
distance greater than the volume. -/
theorem C2_engine_range_counterexample :
    GameEngine.deriveEvents demoState demoSpeak =
      [mkHeardEvent "default" "alice" "bob" (some "hi") 25] ∧
    Real.sqrt ((calculateDistanceSq aliceEntity.position bobEntity.position : ℚ) : ℝ) > 1 := by
  have hd2 : calculateDistanceSq aliceEntity.position bobEntity.position = 25 := by
    norm_num [calculateDistanceSq, aliceEntity, bobEntity]
  constructor
  · show GameEngine.processSpeakEventDerived demoState demoSpeak =
      [mkHeardEvent "default" "alice" "bob" (some "hi") 25]
    unfold GameEngine.processSpeakEventDerived
    rw [show demoState.findEntity demoSpeak.parameters.entityId = some aliceEntity from rfl]
    simp only [demoSpeak, mkSpeechEvent, demoState]
    norm_num [aliceEntity, bobEntity, distWithin, calculateDistanceSq, mkHeardEvent,
      List.filter, bne]
    rw [show (!("bob" == "alice")) = true from by decide]
    norm_num
  · rw [hd2]
    rw [show (((25 : ℚ)) : ℝ) = (5 : ℝ) ^ 2 by norm_num]
    rw [Real.sqrt_sq (by norm_num)]
    norm_num
